import Mathlib

/-!
Shallow embedding of the SignSpotter server (`src/server.js`, latest revision)
over an explicit database state. JSON values are modelled by `JValue`;
JS objects (JSONB columns, request bodies) are association lists in key
insertion order, matching JS object semantics. SQL tables are lists of rows;
transactions are run with an explicit failure oracle so that ROLLBACK
semantics can be stated.
-/

/-- A JSON value as passed around in request bodies and JSONB columns.
Numbers are modelled as integers (the claims only use integral values). -/
inductive JValue : Type
  | null : JValue
  | bool : Bool → JValue
  | num : Int → JValue
  | str : String → JValue
  | arr : List JValue → JValue
  | obj : List (String × JValue) → JValue

/-- First-occurrence association lookup: JS property access `o[k]`,
`none` meaning the property is absent (`undefined`). -/
def lookupKey (k : String) : List (String × JValue) → Option JValue
  | [] => none
  | (k', v) :: rest => if k' = k then some v else lookupKey k rest

/-- JS `delete o[k]` (also the rest-pattern `{ k, ...rest }`): removes the
key `k` from the object. -/
def eraseKey (k : String) : List (String × JValue) → List (String × JValue)
  | [] => []
  | (k', v) :: rest => if k' = k then eraseKey k rest else (k', v) :: eraseKey k rest

/-- Replace the value stored under key `k` wherever `k` occurs, keeping the
key position. -/
def replaceKey (k : String) (v : JValue) : List (String × JValue) → List (String × JValue)
  | [] => []
  | (k', v') :: rest =>
    if k' = k then (k, v) :: replaceKey k v rest else (k', v') :: replaceKey k v rest

/-- JS object-literal update `{ ...o, k: v }`: if `k` is already present its
value is replaced in place (JS keeps the first key position), otherwise the
key is appended at the end. -/
def setKey (k : String) (v : JValue) (l : List (String × JValue)) : List (String × JValue) :=
  if l.any (fun p => p.1 = k) then replaceKey k v l
  else l ++ [(k, v)]

/-- JS truthiness, as used by `if (point_schema)` in the settings handler. -/
def truthy : JValue → Bool
  | .null => false
  | .bool b => b
  | .num n => n != 0
  | .str s => s != ""
  | .arr _ => true
  | .obj _ => true

/-- Truthiness of a possibly-absent value (`undefined` is falsy). -/
def truthyO : Option JValue → Bool
  | none => false
  | some v => truthy v

mutual
/-- Model of `JSON.stringify` (string escaping elided: the claims only
concern the message being serialized once and delivered identically). -/
def stringify : JValue → String
  | .null => "null"
  | .bool b => if b then "true" else "false"
  | .num n => toString n
  | .str s => "\"" ++ s ++ "\""
  | .arr xs => "[" ++ stringifyArr xs ++ "]"
  | .obj fs => "\x7b" ++ stringifyObj fs ++ "\x7d"

def stringifyArr : List JValue → String
  | [] => ""
  | [x] => stringify x
  | x :: y :: rest => stringify x ++ "," ++ stringifyArr (y :: rest)

def stringifyObj : List (String × JValue) → String
  | [] => ""
  | [(k, v)] => "\"" ++ k ++ "\":" ++ stringify v
  | (k, v) :: p :: rest => "\"" ++ k ++ "\":" ++ stringify v ++ "," ++ stringifyObj (p :: rest)
end

/-- How `node-pg` binds a JS value to a text (VARCHAR) SQL parameter.
`none` models a binding that makes the statement fail (NULL / undefined for
a primary-key column, or a non-scalar value). -/
def paramToText : Option JValue → Option String
  | some (.str s) => some s
  | some (.num n) => some (toString n)
  | some (.bool b) => some (if b then "true" else "false")
  | _ => none

/-- A row of the `project` table (latest revision's columns).
`none` in a column models SQL NULL. -/
structure ProjectRow where
  id : String
  plan_data_url : Option JValue
  plan_width : Option JValue
  plan_height : Option JValue
  point_schema : Option JValue
  plan_corners : Option JValue

/-- A row of the `points` table. -/
structure PointRow where
  id : String
  project_id : Option String
  properties : List (String × JValue)
  geometry : JValue

/-- The database state: the `project` table and the `points` table. -/
structure DB where
  project : List ProjectRow
  points : List PointRow

/-- The ids of the rows of the `project` table. -/
def projIds (db : DB) : List String := db.project.map (fun r => r.id)

/-- `INSERT INTO project (id) VALUES ('default') ON CONFLICT (id) DO NOTHING`
(step 5 of `initializeDatabase`). -/
def ensureDefaultProject (db : DB) : DB :=
  if db.project.any (fun r => r.id = "default") then db
  else { db with project := db.project ++ [⟨"default", none, none, none, none, none⟩] }

/-- Body of `POST /api/project/plan` after destructuring
`{ planDataUrl, width, height }`; `none` is an absent (`undefined`) field,
which `node-pg` binds as SQL NULL. -/
structure PlanBody where
  planDataUrl : Option JValue
  width : Option JValue
  height : Option JValue

/-- The `UPDATE project SET plan_data_url = $1, plan_width = $2,
plan_height = $3, plan_corners = NULL WHERE id = 'default'` statement of the
plan handler. -/
def updatePlanStmt (b : PlanBody) (db : DB) : DB :=
  { db with project := db.project.map (fun r =>
      if r.id = "default" then
        { r with plan_data_url := b.planDataUrl, plan_width := b.width,
                 plan_height := b.height, plan_corners := none }
      else r) }

/-- `DELETE FROM points WHERE project_id = 'default'`. -/
def deleteDefaultPoints (db : DB) : DB :=
  { db with points := db.points.filter (fun p => ¬ p.project_id = some "default") }

/-- Run a list of fallible statements in order, starting at statement index
`k`. `fail i = true` means the store fails statement `i` for an external
reason (connection loss, disk error, ...); a statement may also fail on its
own (constraint violation). `none` means some statement failed. -/
def runStmtsFrom (fail : Nat → Bool) : Nat → List (DB → Option DB) → DB → Option DB
  | _, [], db => some db
  | k, s :: rest, db =>
    if fail k then none
    else match s db with
      | none => none
      | some db' => runStmtsFrom fail (k + 1) rest db'

/-- `BEGIN; <statements>; COMMIT` with `ROLLBACK` on any failure: on success
the accumulated state is committed, on failure the initial state is restored
(the Boolean reports whether the transaction committed). -/
def runTx (fail : Nat → Bool) (stmts : List (DB → Option DB)) (db : DB) : DB × Bool :=
  match runStmtsFrom fail 0 stmts db with
  | some db' => (db', true)
  | none => (db, false)

/-- Handler of `POST /api/project/plan`: runs the plan update and the point
deletion in one transaction; returns the resulting database and the HTTP
status (200 on commit, 500 on rollback). -/
def replacePlanHandler (fail : Nat → Bool) (b : PlanBody) (db : DB) : DB × Nat :=
  match runTx fail [fun d => some (updatePlanStmt b d), fun d => some (deleteDefaultPoints d)] db with
  | (db', true) => (db', 200)
  | (db', false) => (db', 500)

/-- Handler of `POST /api/project/settings`: builds the update list from the
truthy fields among `point_schema` and `plan_corners` of the request body;
400 with no write when the list is empty, otherwise a single UPDATE of the
default row. -/
def settingsHandler (body : List (String × JValue)) (db : DB) : DB × Nat :=
  let ps := lookupKey "point_schema" body
  let pc := lookupKey "plan_corners" body
  if truthyO ps = false ∧ truthyO pc = false then (db, 400)
  else
    ({ db with project := db.project.map (fun r =>
        if r.id = "default" then
          { r with point_schema := if truthyO ps then ps else r.point_schema,
                   plan_corners := if truthyO pc then pc else r.plan_corners }
        else r) }, 200)

/-- Handler of `POST /api/points`: reads `req.body.properties.id`, strips
`id` from the stored properties, and runs
`INSERT ... ON CONFLICT (id) DO UPDATE SET properties = $2, geometry = $3`.
The statement fails (500) when the id does not bind as a text parameter, or
when the fresh insert would violate the `project_id` foreign key. -/
def postPointHandler (props : List (String × JValue)) (geom : JValue) (db : DB) : DB × Nat :=
  match paramToText (lookupKey "id" props) with
  | none => (db, 500)
  | some fid =>
    if db.points.any (fun p => p.id = fid) then
      ({ db with points := db.points.map (fun p =>
          if p.id = fid then { p with properties := eraseKey "id" props, geometry := geom }
          else p) }, 200)
    else if db.project.any (fun r => r.id = "default") then
      ({ db with points := db.points ++ [⟨fid, some "default", eraseKey "id" props, geom⟩] }, 200)
    else (db, 500)

/-- Handler of `DELETE /api/points/:id`: `DELETE FROM points WHERE id = $1`;
deleting an absent id deletes nothing and still returns 200. -/
def deletePointHandler (i : String) (db : DB) : DB × Nat :=
  ({ db with points := db.points.filter (fun p => ¬ p.id = i) }, 200)

/-- The `project` part of the `POST /api/project/import` body. -/
structure ImportProject where
  plan_data_url : Option JValue
  plan_width : Option JValue
  plan_height : Option JValue
  point_schema : Option JValue
  plan_corners : Option JValue

/-- A GeoJSON feature of the import body (or of a snapshot response). -/
structure Feature where
  properties : List (String × JValue)
  geometry : JValue

/-- Body of `POST /api/project/import`; `features = none` models an absent
`geojsonData` or an absent `geojsonData.features` (the insert loop is
skipped). -/
structure ImportBody where
  project : ImportProject
  features : Option (List Feature)

/-- The import's `UPDATE project SET plan_data_url = $1, plan_width = $2,
plan_height = $3, point_schema = $4, plan_corners = $5 WHERE id = 'default'`. -/
def importUpdateStmt (p : ImportProject) (db : DB) : DB :=
  { db with project := db.project.map (fun r =>
      if r.id = "default" then
        { r with plan_data_url := p.plan_data_url, plan_width := p.plan_width,
                 plan_height := p.plan_height, point_schema := p.point_schema,
                 plan_corners := p.plan_corners }
      else r) }

/-- One iteration of the import's insert loop:
`const { id, ...properties } = feature.properties` followed by
`INSERT INTO points (id, project_id, properties, geometry) VALUES ($1,
'default', $2, $3)`. The plain INSERT fails on a non-text id parameter, on a
duplicate primary key, or on a `project_id` foreign-key violation. -/
def insertFeatureStmt (f : Feature) (db : DB) : Option DB :=
  match paramToText (lookupKey "id" f.properties) with
  | none => none
  | some fid =>
    if db.points.any (fun p => p.id = fid) then none
    else if db.project.any (fun r => r.id = "default") then
      some { db with points := db.points ++ [⟨fid, some "default", eraseKey "id" f.properties, f.geometry⟩] }
    else none

/-- The statement sequence of `POST /api/project/import`: project update,
delete of all default points, then one insert per feature. -/
def importStmts (b : ImportBody) : List (DB → Option DB) :=
  [fun d => some (importUpdateStmt b.project d),
   fun d => some (deleteDefaultPoints d)]
    ++ (b.features.getD []).map (fun f => insertFeatureStmt f)

/-- Handler of `POST /api/project/import`: the whole statement sequence runs
in one transaction. -/
def importHandler (fail : Nat → Bool) (b : ImportBody) (db : DB) : DB × Nat :=
  match runTx fail (importStmts b) db with
  | (db', true) => (db', 200)
  | (db', false) => (db', 500)

/-- Response of `GET /api/project`: `project` is `rows[0]` of
`SELECT * FROM project WHERE id = 'default'` (`none` when the row is absent,
i.e. the `project` value is `undefined`), and the feature collection rebuilt
from the default project's points with `{ ...row.properties, id: row.id }`. -/
structure ProjectResponse where
  project : Option ProjectRow
  features : List Feature

/-- Handler of `GET /api/project`. -/
def getProjectHandler (db : DB) : ProjectResponse :=
  { project := db.project.find? (fun r => r.id = "default"),
    features := (db.points.filter (fun p => p.project_id = some "default")).map
      (fun p => ⟨setKey "id" (.str p.id) p.properties, p.geometry⟩) }

/-- The schema-level state that `initializeDatabase` manipulates: which
tables, columns, and the default project row exist. -/
structure SchemaState where
  projectTableExists : Bool
  pointsTableExists : Bool
  pointsHasProjectId : Bool
  projectHasPointSchema : Bool
  projectHasPlanCorners : Bool
  defaultRowExists : Bool
deriving DecidableEq, Repr

/-- The five statement groups of `initializeDatabase`, in source order:
create `project` (the CREATE lists `point_schema` and `plan_corners`, so a
fresh table has them), create `points` (without `project_id`), the
check-and-ALTER for `points.project_id`, the check-and-ALTER for the two
newer `project` columns, and the default-row insert. -/
def migStepEffect : Nat → SchemaState → SchemaState
  | 0, s => if s.projectTableExists then s
            else { s with projectTableExists := true, projectHasPointSchema := true,
                          projectHasPlanCorners := true }
  | 1, s => if s.pointsTableExists then s else { s with pointsTableExists := true }
  | 2, s => if s.pointsHasProjectId then s else { s with pointsHasProjectId := true }
  | 3, s => if s.projectHasPointSchema ∧ s.projectHasPlanCorners then s
            else { s with projectHasPointSchema := true, projectHasPlanCorners := true }
  | 4, s => { s with defaultRowExists := true }
  | _, s => s

/-- Run the listed `initializeDatabase` steps in order with a failure
oracle. There is no surrounding transaction: a failing step throws, the
effects of the steps already executed persist, and the catch block only
logs, so the Boolean reports whether an error was logged. -/
def runMigList (fail : Nat → Bool) : List Nat → SchemaState → SchemaState × Bool
  | [], s => (s, false)
  | k :: rest, s =>
    if fail k then (s, true)
    else runMigList fail rest (migStepEffect k s)

/-- `initializeDatabase`: the five steps in source order, no transaction,
errors caught and logged. -/
def initializeDatabase (fail : Nat → Bool) (s : SchemaState) : SchemaState × Bool :=
  runMigList fail [0, 1, 2, 3, 4] s

/-- Result of process startup: whether the HTTP server is serving, the
schema state after migration, and whether a migration error was logged. -/
structure StartupResult where
  serving : Bool
  schema : SchemaState
  migrationErrorLogged : Bool
deriving Repr

/-- `server.listen(PORT, ...)`: the server starts listening first and only
then runs `initializeDatabase` inside the listen callback, so serving begins
regardless of the migration's outcome. -/
def serverStart (fail : Nat → Bool) (s : SchemaState) : StartupResult :=
  let r := initializeDatabase fail s
  { serving := true, schema := r.1, migrationErrorLogged := r.2 }

/-- WebSocket connection ready states (the `ws` library's constants). -/
inductive ReadyState : Type
  | CONNECTING | OPEN | CLOSING | CLOSED
deriving DecidableEq, Repr

/-- A connected WebSocket client: its ready state and the messages it has
received so far. -/
structure WSClient where
  readyState : ReadyState
  received : List String
deriving DecidableEq, Repr

/-- The `broadcast` function: serialize the event once with
`JSON.stringify`, then send the message to every client whose
`readyState` is `OPEN`, skipping the others. -/
def broadcast (data : JValue) (clients : List WSClient) : List WSClient :=
  let message := stringify data
  clients.map (fun c =>
    if c.readyState = ReadyState.OPEN then { c with received := c.received ++ [message] }
    else c)

theorem lookupKey_append (k : String) (l₁ l₂ : List (String × JValue)) :
    lookupKey k (l₁ ++ l₂) =
      match lookupKey k l₁ with
      | some v => some v
      | none => lookupKey k l₂ := by
  induction l₁ with
  | nil => rfl
  | cons a t ih =>
    obtain ⟨k', v⟩ := a
    by_cases h : k' = k <;> simp [lookupKey, h, ih]

theorem lookupKey_eraseKey_self (k : String) (l : List (String × JValue)) :
    lookupKey k (eraseKey k l) = none := by
  induction l with
  | nil => rfl
  | cons a t ih =>
    obtain ⟨k', v⟩ := a
    by_cases h : k' = k <;> simp [eraseKey, lookupKey, h, ih]

theorem lookupKey_eraseKey_ne (k k₀ : String) (l : List (String × JValue)) (h : ¬ k = k₀) :
    lookupKey k (eraseKey k₀ l) = lookupKey k l := by
  induction l with
  | nil => rfl
  | cons a t ih =>
    obtain ⟨k', v⟩ := a
    by_cases h' : k' = k₀ <;> by_cases h'' : k' = k <;>
      simp_all [eraseKey, lookupKey]

theorem lookupKey_eq_none_of_not_any (k : String) (l : List (String × JValue))
    (h : l.any (fun p => p.1 = k) = false) : lookupKey k l = none := by
  induction l with
  | nil => rfl
  | cons a t ih =>
    obtain ⟨k', v⟩ := a
    simp only [List.any_cons, Bool.or_eq_false_iff] at h
    have hk : ¬ k' = k := by
      intro hh
      simp [hh] at h
    simp [lookupKey, hk, ih h.2]

theorem lookupKey_replaceKey_self (k : String) (v : JValue) (l : List (String × JValue))
    (h : l.any (fun p => p.1 = k) = true) :
    lookupKey k (replaceKey k v l) = some v := by
  induction l with
  | nil => simp at h
  | cons a t ih =>
    obtain ⟨k', v'⟩ := a
    by_cases hk : k' = k
    · simp [replaceKey, lookupKey, hk]
    · simp only [List.any_cons] at h
      have ht : t.any (fun p => p.1 = k) = true := by simpa [hk] using h
      simp [replaceKey, lookupKey, hk, ih ht]

theorem lookupKey_replaceKey_ne (k k₀ : String) (v : JValue) (l : List (String × JValue))
    (h : ¬ k = k₀) :
    lookupKey k (replaceKey k₀ v l) = lookupKey k l := by
  induction l with
  | nil => rfl
  | cons a t ih =>
    obtain ⟨k', v'⟩ := a
    by_cases hk : k' = k₀ <;> by_cases hk2 : k' = k <;>
      simp_all [replaceKey, lookupKey]

theorem lookupKey_setKey_self (k : String) (v : JValue) (l : List (String × JValue)) :
    lookupKey k (setKey k v l) = some v := by
  unfold setKey
  by_cases hany : l.any (fun p => p.1 = k) = true
  · rw [if_pos (by simpa using hany)]
    exact lookupKey_replaceKey_self k v l hany
  · simp only [Bool.not_eq_true] at hany
    rw [if_neg (by simp [hany])]
    rw [lookupKey_append, lookupKey_eq_none_of_not_any k l hany]
    simp [lookupKey]

theorem lookupKey_setKey_ne (k k₀ : String) (v : JValue) (l : List (String × JValue))
    (h : ¬ k = k₀) : lookupKey k (setKey k₀ v l) = lookupKey k l := by
  unfold setKey
  by_cases hany : l.any (fun p => p.1 = k₀) = true
  · rw [if_pos (by simpa using hany)]
    exact lookupKey_replaceKey_ne k k₀ v l h
  · simp only [Bool.not_eq_true] at hany
    rw [if_neg (by simp [hany])]
    rw [lookupKey_append]
    cases hl : lookupKey k l with
    | some w => rfl
    | none =>
      have h2 : ¬ k₀ = k := fun hh => h hh.symm
      simp [lookupKey, h2]

theorem runStmtsFrom_preserves (fail : Nat → Bool) (P : DB → Prop)
    (stmts : List (DB → Option DB))
    (hstmts : ∀ s ∈ stmts, ∀ d d', s d = some d' → P d → P d') :
    ∀ k db db', runStmtsFrom fail k stmts db = some db' → P db → P db' := by
  induction stmts with
  | nil =>
    intro k db db' hrun hP
    simp only [runStmtsFrom] at hrun
    cases hrun
    exact hP
  | cons s rest ih =>
    intro k db db' hrun hP
    simp only [runStmtsFrom] at hrun
    by_cases hf : fail k
    · simp [hf] at hrun
    · simp only [hf, Bool.false_eq_true, if_false] at hrun
      cases hs : s db with
      | none => rw [hs] at hrun; cases hrun
      | some d1 =>
        rw [hs] at hrun
        exact ih (fun s' hs' => hstmts s' (List.mem_cons_of_mem _ hs')) (k + 1) d1 db' hrun
          (hstmts s (List.mem_cons_self _ _) db d1 hs hP)

theorem replacePlan_cases (fail : Nat → Bool) (b : PlanBody) (db : DB) :
    replacePlanHandler fail b db =
      if fail 0 = true ∨ fail 1 = true then (db, 500)
      else (deleteDefaultPoints (updatePlanStmt b db), 200) := by
  by_cases h0 : fail 0 <;> by_cases h1 : fail 1 <;>
    simp [replacePlanHandler, runTx, runStmtsFrom, h0, h1]

theorem importHandler_cases (fail : Nat → Bool) (b : ImportBody) (db : DB) :
    (∃ db', runStmtsFrom fail 0 (importStmts b) db = some db' ∧
      importHandler fail b db = (db', 200)) ∨
    (runStmtsFrom fail 0 (importStmts b) db = none ∧
      importHandler fail b db = (db, 500)) := by
  unfold importHandler runTx
  cases hr : runStmtsFrom fail 0 (importStmts b) db with
  | some db' => exact Or.inl ⟨db', rfl, rfl⟩
  | none => exact Or.inr ⟨rfl, rfl⟩

theorem projIds_updatePlanStmt (b : PlanBody) (db : DB) :
    projIds (updatePlanStmt b db) = projIds db := by
  simp only [projIds, updatePlanStmt, List.map_map]
  congr 1
  funext r
  by_cases h : r.id = "default" <;> simp [Function.comp, h]

theorem projIds_deleteDefaultPoints (db : DB) :
    projIds (deleteDefaultPoints db) = projIds db := rfl

theorem projIds_importUpdateStmt (p : ImportProject) (db : DB) :
    projIds (importUpdateStmt p db) = projIds db := by
  simp only [projIds, importUpdateStmt, List.map_map]
  congr 1
  funext r
  by_cases h : r.id = "default" <;> simp [Function.comp, h]

theorem projIds_insertFeatureStmt (f : Feature) (db db' : DB)
    (h : insertFeatureStmt f db = some db') : projIds db' = projIds db := by
  unfold insertFeatureStmt at h
  cases hp : paramToText (lookupKey "id" f.properties) with
  | none => rw [hp] at h; cases h
  | some fid =>
    rw [hp] at h
    by_cases h1 : db.points.any (fun p => p.id = fid) = true
    · simp [h1] at h
    · simp only [h1, Bool.false_eq_true, if_false] at h
      by_cases h2 : db.project.any (fun r => r.id = "default") = true
      · simp only [h2, if_true] at h
        cases h
        rfl
      · simp [h2] at h

theorem projIds_importStmts (b : ImportBody) :
    ∀ s ∈ importStmts b, ∀ d d', s d = some d' → projIds d = projIds d' := by
  intro s hs d d' hd
  unfold importStmts at hs
  rcases List.mem_append.mp hs with h | h
  · rcases List.mem_cons.mp h with h1 | h2
    · subst h1
      cases hd
      exact (projIds_importUpdateStmt _ _).symm
    · rcases List.mem_cons.mp h2 with h1 | h3
      · subst h1
        cases hd
        exact (projIds_deleteDefaultPoints _).symm
      · cases h3
  · rcases List.mem_map.mp h with ⟨f, _, hf⟩
    subst hf
    exact (projIds_insertFeatureStmt f d d' hd).symm

theorem filter_default_of_deleted (l : List PointRow) :
    ((l.filter (fun p => ¬ p.project_id = some "default")).filter
      (fun p => p.project_id = some "default")) = [] := by
  induction l with
  | nil => rfl
  | cons a t ih => by_cases h : a.project_id = some "default" <;> simp [h, ih]

/-- A default project row carrying a point schema, used as sample input. -/
def sampleRow : ProjectRow := ⟨"default", none, none, none, some (.arr []), none⟩

/-- A sample point geometry. -/
def sampleGeom : JValue :=
  .obj [("type", .str "Point"), ("coordinates", .arr [.num 10, .num 20])]

/-- A sample stored point of the default project. -/
def samplePoint : PointRow := ⟨"old1", some "default", [("label", .str "Old")], sampleGeom⟩

/-- A sample database: the default project row and one point. -/
def sampleDB : DB := ⟨[sampleRow], [samplePoint]⟩

/-- A sample plan-replacement body. -/
def samplePlanBody : PlanBody := ⟨some (.str "newplan"), some (.num 100), some (.num 50)⟩

/-- An import body whose single feature has no `id` in its properties, so
its insert statement fails. -/
def badImport : ImportBody :=
  ⟨⟨none, none, none, none, none⟩, some [⟨[("label", .str "NoId")], sampleGeom⟩]⟩

/-- Claim C1: for the replace-plan and import operations, any failure during
any of their statements — in particular a failure while inserting one
imported feature — rolls back the entire operation: whenever the handler
reports failure (status 500), the resulting database is exactly the
database from before the operation, so no partial state is visible. -/
theorem multiStatement_rollback (fail₁ fail₂ : Nat → Bool) (b : PlanBody) (ib : ImportBody)
    (db₁ db₂ : DB) :
    ((replacePlanHandler fail₁ b db₁).2 = 500 → (replacePlanHandler fail₁ b db₁).1 = db₁) ∧
    ((importHandler fail₂ ib db₂).2 = 500 → (importHandler fail₂ ib db₂).1 = db₂) := by
  constructor
  · intro h
    rw [replacePlan_cases] at h ⊢
    by_cases hc : fail₁ 0 = true ∨ fail₁ 1 = true
    · simp [hc]
    · rw [if_neg hc] at h
      simp at h
  · intro h
    rcases importHandler_cases fail₂ ib db₂ with ⟨db', _, heq⟩ | ⟨_, heq⟩
    · rw [heq] at h
      simp at h
    · rw [heq]

/-- Witness for C1: a plan replacement whose second statement fails rolls
back to the original database, and an import whose third statement (the
insert of an id-less feature) fails leaves the project row and the old
points set intact. -/
theorem multiStatement_rollback_witness :
    (replacePlanHandler (fun k => k == 1) samplePlanBody sampleDB).2 = 500 ∧
    (replacePlanHandler (fun k => k == 1) samplePlanBody sampleDB).1 = sampleDB ∧
    (importHandler (fun _ => false) badImport sampleDB).2 = 500 ∧
    (importHandler (fun _ => false) badImport sampleDB).1 = sampleDB := by
  refine ⟨rfl, ?_, rfl, ?_⟩
  · exact (multiStatement_rollback (fun k => k == 1) (fun _ => false) samplePlanBody
      badImport sampleDB sampleDB).1 rfl
  · exact (multiStatement_rollback (fun k => k == 1) (fun _ => false) samplePlanBody
      badImport sampleDB sampleDB).2 rfl

/-- Claim C2: after every successful replace-plan operation, regardless of
how many points existed before, the default project has zero points, its
`plan_corners` is NULL, the new plan reference is stored, and the row's
`point_schema` is untouched (the updated row differs from the old one only
in the four plan fields). -/
theorem replacePlan_success (fail : Nat → Bool) (b : PlanBody) (db : DB) (r : ProjectRow)
    (h : db.project = [r]) (hid : r.id = "default")
    (hs : (replacePlanHandler fail b db).2 = 200) :
    (replacePlanHandler fail b db).1.project =
      [{ r with plan_data_url := b.planDataUrl, plan_width := b.width,
                plan_height := b.height, plan_corners := none }] ∧
    ((replacePlanHandler fail b db).1.points.filter
      (fun p => p.project_id = some "default")) = [] ∧
    (∀ r' ∈ (replacePlanHandler fail b db).1.project, r'.point_schema = r.point_schema) := by
  rw [replacePlan_cases] at hs ⊢
  by_cases hc : fail 0 = true ∨ fail 1 = true
  · rw [if_pos hc] at hs
    simp at hs
  · rw [if_neg hc]
    refine ⟨?_, ?_, ?_⟩
    · simp [deleteDefaultPoints, updatePlanStmt, h, hid]
    · exact filter_default_of_deleted db.points
    · intro r' hr'
      simp [deleteDefaultPoints, updatePlanStmt, h, hid] at hr'
      rw [hr']

/-- Witness for C2: replacing the plan of the sample database succeeds and
leaves the project with the new plan, NULL corners, the old schema, and no
points. -/
theorem replacePlan_success_witness :
    (replacePlanHandler (fun _ => false) samplePlanBody sampleDB).1.project =
      [⟨"default", some (.str "newplan"), some (.num 100), some (.num 50),
        some (.arr []), none⟩] ∧
    ((replacePlanHandler (fun _ => false) samplePlanBody sampleDB).1.points.filter
      (fun p => p.project_id = some "default")) = [] := by
  have h := replacePlan_success (fun _ => false) samplePlanBody sampleDB sampleRow rfl rfl rfl
  exact ⟨h.1, h.2.1⟩

/-- A settings body supplying only `opacity` (with a truthy value). -/
def opacityBody : List (String × JValue) := [("opacity", .num 1)]

/-- A settings body supplying only `plan_corners`. -/
def cornersBody : List (String × JValue) := [("plan_corners", .arr [.num 1])]

/-- Counterexample to claim C3 as stated: a request body supplying only
`opacity` — one of the fields the claim lists as recognized — is rejected
with status 400 and performs no write, instead of updating an opacity
column (no such column exists in the model of the `project` table). -/
theorem settings_opacity_rejected :
    settingsHandler opacityBody sampleDB = (sampleDB, 400) := rfl

/-- Claim C3 (amended): the update-settings operation recognizes only
`point_schema` and `plan_corners`. It answers 400 with no write exactly
when neither recognized field is supplied with a truthy value; otherwise it
updates exactly the truthy-supplied columns of the default row, leaving the
row's other columns and the points table untouched. -/
theorem settings_updates_exactly_supplied (body : List (String × JValue)) (db : DB)
    (r : ProjectRow) (h : db.project = [r]) (hid : r.id = "default") :
    (settingsHandler body db = (db, 400) ↔
      (truthyO (lookupKey "point_schema" body) = false ∧
       truthyO (lookupKey "plan_corners" body) = false)) ∧
    ((settingsHandler body db).2 = 200 →
      (settingsHandler body db).1.points = db.points ∧
      ∃ r', (settingsHandler body db).1.project = [r'] ∧
        r'.id = r.id ∧ r'.plan_data_url = r.plan_data_url ∧
        r'.plan_width = r.plan_width ∧ r'.plan_height = r.plan_height ∧
        (truthyO (lookupKey "point_schema" body) = true →
          r'.point_schema = lookupKey "point_schema" body) ∧
        (truthyO (lookupKey "point_schema" body) = false →
          r'.point_schema = r.point_schema) ∧
        (truthyO (lookupKey "plan_corners" body) = true →
          r'.plan_corners = lookupKey "plan_corners" body) ∧
        (truthyO (lookupKey "plan_corners" body) = false →
          r'.plan_corners = r.plan_corners)) := by
  by_cases hc : truthyO (lookupKey "point_schema" body) = false ∧
      truthyO (lookupKey "plan_corners" body) = false
  · constructor
    · simp [settingsHandler, hc]
    · intro h200
      simp [settingsHandler, hc] at h200
  · constructor
    · constructor
      · intro heq
        have := congrArg Prod.snd heq
        simp [settingsHandler, hc] at this
      · intro hcc
        exact absurd hcc hc
    · intro _
      refine ⟨?_, ?_⟩
      · simp [settingsHandler, hc]
      · refine ⟨{ r with
            point_schema := if truthyO (lookupKey "point_schema" body) then
              lookupKey "point_schema" body else r.point_schema,
            plan_corners := if truthyO (lookupKey "plan_corners" body) then
              lookupKey "plan_corners" body else r.plan_corners },
          ?_, rfl, rfl, rfl, rfl, ?_, ?_, ?_, ?_⟩
        · simp [settingsHandler, hc, h, hid]
        all_goals (intro ht; simp [ht])

/-- Witness for the amended C3: supplying only `plan_corners` updates it,
answers 200, and leaves the points untouched. -/
theorem settings_updates_exactly_supplied_witness :
    (settingsHandler cornersBody sampleDB).2 = 200 ∧
    (settingsHandler cornersBody sampleDB).1.points = sampleDB.points := by
  refine ⟨rfl, ?_⟩
  exact ((settings_updates_exactly_supplied cornersBody sampleDB sampleRow rfl rfl).2 rfl).1

/-- A settings body whose recognized fields are both bound to falsy values. -/
def falsySettingsBody : List (String × JValue) := [("point_schema", .null), ("plan_corners", .num 0)]

/-- Claim C10: in the update-settings operation a recognized field bound to
a falsy value (null, false, 0, empty string — all falsy under `truthy`) is
treated as not supplied: it is excluded from the update, so `point_schema`
and `plan_corners` can never be cleared to NULL through this operation, and
a request whose recognized fields are all falsy is rejected with 400 and no
write. -/
theorem settings_falsy_excluded (body : List (String × JValue)) (db : DB)
    (r : ProjectRow) (h : db.project = [r]) (hid : r.id = "default") :
    (truthy .null = false ∧ truthy (.bool false) = false ∧ truthy (.num 0) = false ∧
      truthy (.str "") = false) ∧
    ((truthyO (lookupKey "point_schema" body) = false ∧
      truthyO (lookupKey "plan_corners" body) = false) →
      settingsHandler body db = (db, 400)) ∧
    (∀ v, lookupKey "point_schema" body = some v → truthy v = false →
      ∀ r' ∈ (settingsHandler body db).1.project, r'.point_schema = r.point_schema) ∧
    (∀ v, lookupKey "plan_corners" body = some v → truthy v = false →
      ∀ r' ∈ (settingsHandler body db).1.project, r'.plan_corners = r.plan_corners) ∧
    (∀ r' ∈ (settingsHandler body db).1.project, r'.point_schema = none →
      r.point_schema = none) ∧
    (∀ r' ∈ (settingsHandler body db).1.project, r'.plan_corners = none →
      r.plan_corners = none) := by
  refine ⟨⟨rfl, rfl, rfl, rfl⟩, ?_, ?_, ?_, ?_, ?_⟩
  · intro hc
    simp [settingsHandler, hc]
  · intro v hv hfv r' hr'
    have hto : truthyO (lookupKey "point_schema" body) = false := by
      rw [hv]
      simpa [truthyO] using hfv
    by_cases hc : truthyO (lookupKey "point_schema" body) = false ∧
        truthyO (lookupKey "plan_corners" body) = false
    · simp [settingsHandler, hc, h] at hr'
      rw [hr']
    · simp [settingsHandler, hc, h, hid] at hr'
      rw [hr']
      simp [hto]
  · intro v hv hfv r' hr'
    have hto : truthyO (lookupKey "plan_corners" body) = false := by
      rw [hv]
      simpa [truthyO] using hfv
    by_cases hc : truthyO (lookupKey "point_schema" body) = false ∧
        truthyO (lookupKey "plan_corners" body) = false
    · simp [settingsHandler, hc, h] at hr'
      rw [hr']
    · simp [settingsHandler, hc, h, hid] at hr'
      rw [hr']
      simp [hto]
  · intro r' hr' hnone
    by_cases hc : truthyO (lookupKey "point_schema" body) = false ∧
        truthyO (lookupKey "plan_corners" body) = false
    · simp [settingsHandler, hc, h] at hr'
      rw [hr'] at hnone
      exact hnone
    · simp [settingsHandler, hc, h, hid] at hr'
      rw [hr'] at hnone
      by_cases ht : truthyO (lookupKey "point_schema" body) = true
      · simp only [ht, if_true] at hnone
        rw [hnone] at ht
        simp [truthyO] at ht
      · simp only [Bool.not_eq_true] at ht
        simpa [ht] using hnone
  · intro r' hr' hnone
    by_cases hc : truthyO (lookupKey "point_schema" body) = false ∧
        truthyO (lookupKey "plan_corners" body) = false
    · simp [settingsHandler, hc, h] at hr'
      rw [hr'] at hnone
      exact hnone
    · simp [settingsHandler, hc, h, hid] at hr'
      rw [hr'] at hnone
      by_cases ht : truthyO (lookupKey "plan_corners" body) = true
      · simp only [ht, if_true] at hnone
        rw [hnone] at ht
        simp [truthyO] at ht
      · simp only [Bool.not_eq_true] at ht
        simpa [ht] using hnone

/-- Witness for C10: a body binding `point_schema` to null and
`plan_corners` to 0 is rejected with 400 and performs no write. -/
theorem settings_falsy_excluded_witness :
    settingsHandler falsySettingsBody sampleDB = (sampleDB, 400) :=
  (settings_falsy_excluded falsySettingsBody sampleDB sampleRow rfl rfl).2.1 ⟨rfl, rfl⟩

theorem upd_any (fid : String) (pr : List (String × JValue)) (g : JValue) (l : List PointRow) :
    ((l.map (fun p => if p.id = fid then { p with properties := pr, geometry := g } else p)).any
      (fun p => p.id = fid)) = l.any (fun p => p.id = fid) := by
  induction l with
  | nil => rfl
  | cons a t ih => by_cases h : a.id = fid <;> simp [h, ih]

theorem upd_filter_length (fid : String) (pr : List (String × JValue)) (g : JValue)
    (l : List PointRow) :
    ((l.map (fun p => if p.id = fid then { p with properties := pr, geometry := g } else p)).filter
      (fun p => p.id = fid)).length = (l.filter (fun p => p.id = fid)).length := by
  induction l with
  | nil => rfl
  | cons a t ih => by_cases h : a.id = fid <;> simp [h, ih]

theorem upd_mem (fid : String) (pr : List (String × JValue)) (g : JValue) (l : List PointRow) :
    ∀ p ∈ l.map (fun p => if p.id = fid then { p with properties := pr, geometry := g } else p),
      p.id = fid → p.properties = pr ∧ p.geometry = g := by
  intro p hp hpid
  rcases List.mem_map.mp hp with ⟨q, hq, rfl⟩
  by_cases h : q.id = fid
  · simp [h]
  · rw [if_neg h] at hpid ⊢
    exact absurd hpid h

theorem filter_id_length_one (fid : String) :
    ∀ l : List PointRow, (l.map (fun p => p.id)).Nodup →
      l.any (fun p => p.id = fid) = true → (l.filter (fun p => p.id = fid)).length = 1 := by
  intro l
  induction l with
  | nil =>
    intro _ h
    simp at h
  | cons a t ih =>
    intro hnd hany
    simp only [List.map_cons, List.nodup_cons] at hnd
    by_cases hid : a.id = fid
    · have ht : t.filter (fun p => p.id = fid) = [] := by
        rw [List.filter_eq_nil_iff]
        intro p hp
        simp only [decide_eq_true_eq]
        intro hpf
        have hmem : a.id ∈ t.map (fun p => p.id) := by
          rw [hid, ← hpf]
          exact List.mem_map_of_mem (fun p => p.id) hp
        exact hnd.1 hmem
      simp [hid, ht]
    · have hta : t.any (fun p => p.id = fid) = true := by simpa [hid] using hany
      simp [hid, ih hnd.2 hta]

/-- Claim C4: upserting a point with a given id twice with different
properties and geometries leaves exactly one stored point at that id, whose
stored properties and geometry are those of the latest upsert (a conflict
on the id triggers replacement, never a duplicate row). -/
theorem upsert_latest_wins (props₁ props₂ : List (String × JValue)) (geom₁ geom₂ : JValue)
    (fid : String) (db : DB)
    (h₁ : paramToText (lookupKey "id" props₁) = some fid)
    (h₂ : paramToText (lookupKey "id" props₂) = some fid)
    (hnd : (db.points.map (fun p => p.id)).Nodup)
    (hproj : db.project.any (fun r => r.id = "default") = true) :
    (((postPointHandler props₂ geom₂ (postPointHandler props₁ geom₁ db).1).1.points.filter
      (fun p => p.id = fid)).length = 1) ∧
    (∀ p ∈ (postPointHandler props₂ geom₂ (postPointHandler props₁ geom₁ db).1).1.points,
      p.id = fid → p.properties = eraseKey "id" props₂ ∧ p.geometry = geom₂) := by
  by_cases hany : db.points.any (fun p => p.id = fid) = true
  · have hdb1 : postPointHandler props₁ geom₁ db =
        ({ db with points := db.points.map (fun p =>
          if p.id = fid then
            { p with properties := eraseKey "id" props₁, geometry := geom₁ }
          else p) }, 200) := by
      simp [postPointHandler, h₁, hany]
    rw [hdb1]
    have hany1 : ((db.points.map (fun p =>
        if p.id = fid then
          { p with properties := eraseKey "id" props₁, geometry := geom₁ }
        else p)).any (fun p => p.id = fid)) = true := by
      rw [upd_any]
      exact hany
    have hdb2 : postPointHandler props₂ geom₂ ({ db with points := db.points.map (fun p =>
        if p.id = fid then
          { p with properties := eraseKey "id" props₁, geometry := geom₁ }
        else p) }, 200).1 =
        ({ db with points := (db.points.map (fun p =>
          if p.id = fid then
            { p with properties := eraseKey "id" props₁, geometry := geom₁ }
          else p)).map (fun p =>
          if p.id = fid then
            { p with properties := eraseKey "id" props₂, geometry := geom₂ }
          else p) }, 200) := by
      simp [postPointHandler, h₂, hany1]
    rw [hdb2]
    constructor
    · rw [upd_filter_length, upd_filter_length]
      exact filter_id_length_one fid db.points hnd hany
    · exact upd_mem fid (eraseKey "id" props₂) geom₂ _
  · have hanyf : db.points.any (fun p => p.id = fid) = false := by
      simpa using hany
    have hdb1 : postPointHandler props₁ geom₁ db =
        ({ db with points := db.points ++ [({ id := fid, project_id := some "default", properties := eraseKey "id" props₁, geometry := geom₁ } : PointRow)] },
          200) := by
      simp [postPointHandler, h₁, hanyf, hproj]
    rw [hdb1]
    have hany1 : ((db.points ++ [({ id := fid, project_id := some "default", properties := eraseKey "id" props₁, geometry := geom₁ } : PointRow)]).any
        (fun p => p.id = fid)) = true := by
      simp
    have hdb2 : postPointHandler props₂ geom₂
        ({ db with points := db.points ++ [({ id := fid, project_id := some "default", properties := eraseKey "id" props₁, geometry := geom₁ } : PointRow)] },
          200).1 =
        ({ db with points := (db.points ++
          [({ id := fid, project_id := some "default", properties := eraseKey "id" props₁, geometry := geom₁ } : PointRow)]).map (fun p =>
          if p.id = fid then
            { p with properties := eraseKey "id" props₂, geometry := geom₂ }
          else p) }, 200) := by
      simp [postPointHandler, h₂, hany1]
    rw [hdb2]
    constructor
    · rw [upd_filter_length]
      have hfe : db.points.filter (fun p => p.id = fid) = [] := by
        rw [List.filter_eq_nil_iff]
        intro p hp
        simp only [decide_eq_true_eq]
        intro hpf
        rw [List.any_eq_false] at hanyf
        exact absurd (by simpa using hpf) (by simpa using hanyf p hp)
      simp [List.filter_append, hfe]
    · exact upd_mem fid (eraseKey "id" props₂) geom₂ _

/-- Witness for C4: upserting id `p1` twice in the sample database leaves a
single `p1` row carrying the second properties and geometry. -/
theorem upsert_latest_wins_witness :
    (((postPointHandler [("id", .str "p1"), ("label", .str "B")] (.num 2)
        (postPointHandler [("id", .str "p1"), ("label", .str "A")] (.num 1) sampleDB).1).1.points.filter
      (fun p => p.id = "p1")).length = 1) := by
  exact (upsert_latest_wins [("id", .str "p1"), ("label", .str "A")]
    [("id", .str "p1"), ("label", .str "B")] (.num 1) (.num 2) "p1" sampleDB
    rfl rfl (by simp [sampleDB, samplePoint]) rfl).1

/-- Claim C5: upserting a feature whose properties carry an `id` field
stores the properties without `id`, and the project snapshot returns the
feature with `id` reconstructed from the primary key, every other property
unchanged, and the same geometry (round-trip). -/
theorem point_roundtrip (props : List (String × JValue)) (geom : JValue) (db : DB) (pid : String)
    (hid : lookupKey "id" props = some (.str pid))
    (hfresh : db.points.any (fun p => p.id = pid) = false)
    (hproj : db.project.any (fun r => r.id = "default") = true) :
    ((postPointHandler props geom db).2 = 200) ∧
    (∀ p ∈ (postPointHandler props geom db).1.points, p.id = pid →
      lookupKey "id" p.properties = none) ∧
    ∃ f, (getProjectHandler (postPointHandler props geom db).1).features.getLast? = some f ∧
      lookupKey "id" f.properties = some (.str pid) ∧
      (∀ k, ¬ k = "id" → lookupKey k f.properties = lookupKey k props) ∧
      f.geometry = geom := by
  have hdb : postPointHandler props geom db =
      ({ db with points := db.points ++
        [({ id := pid, project_id := some "default", properties := eraseKey "id" props,
            geometry := geom } : PointRow)] }, 200) := by
    simp [postPointHandler, hid, paramToText, hfresh, hproj]
  rw [hdb]
  refine ⟨rfl, ?_, ?_⟩
  · intro p hp hpid
    rcases List.mem_append.mp hp with h | h
    · rw [List.any_eq_false] at hfresh
      exact absurd (by simpa using hpid) (by simpa using hfresh p h)
    · rcases List.mem_singleton.mp h with rfl
      exact lookupKey_eraseKey_self "id" props
  · refine ⟨⟨setKey "id" (.str pid) (eraseKey "id" props), geom⟩, ?_, ?_, ?_, rfl⟩
    · simp [getProjectHandler, List.filter_append, List.getLast?_concat]
    · exact lookupKey_setKey_self "id" (.str pid) (eraseKey "id" props)
    · intro k hk
      rw [lookupKey_setKey_ne k "id" (.str pid) (eraseKey "id" props) hk]
      exact lookupKey_eraseKey_ne k "id" props hk

/-- The round-trip example's request properties. -/
def roundtripProps : List (String × JValue) := [("id", .str "p1"), ("label", .str "Exit")]

/-- A database holding only the default project row. -/
def freshDB : DB := ⟨[sampleRow], []⟩

/-- The feature the snapshot returns for the round-trip example. -/
def roundtripFeature : Feature := ⟨[("label", .str "Exit"), ("id", .str "p1")], sampleGeom⟩

/-- Witness for C5: the spec's example — posting
`{ properties: { id: "p1", label: "Exit" }, geometry: Point [10, 20] }` and
fetching yields a feature with `properties.id = "p1"`,
`properties.label = "Exit"`, and the same geometry. -/
theorem point_roundtrip_witness :
    (postPointHandler roundtripProps sampleGeom freshDB).2 = 200 ∧
    (getProjectHandler (postPointHandler roundtripProps sampleGeom freshDB).1).features.getLast?
      = some roundtripFeature ∧
    lookupKey "id" roundtripFeature.properties = some (.str "p1") ∧
    lookupKey "label" roundtripFeature.properties = some (.str "Exit") ∧
    roundtripFeature.geometry = sampleGeom := by
  obtain ⟨hs, _, f, hf, hfid, hother, hgeom⟩ :=
    point_roundtrip roundtripProps sampleGeom freshDB "p1" rfl rfl rfl
  have hf0 : (getProjectHandler (postPointHandler roundtripProps sampleGeom freshDB).1).features.getLast?
      = some roundtripFeature := rfl
  have hfe : f = roundtripFeature := by
    rw [hf] at hf0
    exact Option.some.inj hf0
  refine ⟨hs, hf0, ?_, ?_, rfl⟩
  · rw [← hfe]
    exact hfid
  · rw [← hfe]
    rw [hother "label" (by decide)]
    rfl

theorem migStepEffect_preserves_projectTable (k : Nat) (s : SchemaState)
    (h : s.projectTableExists = true) : (migStepEffect k s).projectTableExists = true := by
  rcases k with _ | _ | _ | _ | _ | k <;>
    simp only [migStepEffect] <;> (try split) <;> simp [h]

theorem runMigList_preserves_projectTable (fail : Nat → Bool) (l : List Nat) :
    ∀ s : SchemaState, s.projectTableExists = true →
      ((runMigList fail l s).1).projectTableExists = true := by
  induction l with
  | nil => intro s h; exact h
  | cons k rest ih =>
    intro s h
    by_cases hf : fail k
    · simp [runMigList, hf, h]
    · simp only [runMigList, hf, Bool.false_eq_true, if_false]
      exact ih (migStepEffect k s) (migStepEffect_preserves_projectTable k s h)

/-- The schema state in which nothing has been created yet. -/
def emptySchema : SchemaState := ⟨false, false, false, false, false, false⟩

/-- Counterexample to claim C6 as stated: when the second migration step
(the `points` table creation) fails, the process is serving anyway, the
error is merely logged, and the first step's effect (the `project` table)
persists — the migration attempt was not rolled back and startup was not
aborted. -/
theorem migration_failure_not_fatal_counterexample :
    (serverStart (fun k => k == 1) emptySchema).serving = true ∧
    (serverStart (fun k => k == 1) emptySchema).migrationErrorLogged = true ∧
    (serverStart (fun k => k == 1) emptySchema).schema.projectTableExists = true ∧
    emptySchema.projectTableExists = false := ⟨rfl, rfl, rfl, rfl⟩

/-- Claim C6 (amended): the schema-migration steps at startup run
sequentially on one connection without an enclosing transaction; a failure
in any step aborts the remaining steps but the effects of completed steps
persist (in particular, once step 0 succeeds the `project` table exists no
matter what fails later), the error is caught and logged, and the server is
serving regardless of the migration outcome; a fully successful run leaves
every table, column and the default row in place. -/
theorem migration_behavior (fail : Nat → Bool) (s : SchemaState) :
    (serverStart fail s).serving = true ∧
    (fail 0 = false → (serverStart fail s).schema.projectTableExists = true) ∧
    ((∀ k, fail k = false) →
      serverStart fail s = ⟨true, ⟨true, true, true, true, true, true⟩, false⟩) := by
  refine ⟨rfl, ?_, ?_⟩
  · intro h0
    show ((runMigList fail [0, 1, 2, 3, 4] s).1).projectTableExists = true
    simp only [runMigList, h0, Bool.false_eq_true, if_false]
    exact runMigList_preserves_projectTable fail [1, 2, 3, 4] (migStepEffect 0 s)
      (by by_cases h : s.projectTableExists = true <;> simp [migStepEffect, h])
  · intro hall
    obtain ⟨p1, p2, p3, p4, p5, p6⟩ := s
    cases p1 <;> cases p2 <;> cases p3 <;> cases p4 <;> cases p5 <;> cases p6 <;>
      simp [serverStart, initializeDatabase, runMigList, migStepEffect,
        hall 0, hall 1, hall 2, hall 3, hall 4]

/-- Witness for the amended C6: a failure-free startup from the empty
schema serves and fully migrates. -/
theorem migration_behavior_witness :
    (serverStart (fun _ => false) emptySchema).serving = true ∧
    (serverStart (fun _ => false) emptySchema).schema.projectTableExists = true ∧
    serverStart (fun _ => false) emptySchema =
      ⟨true, ⟨true, true, true, true, true, true⟩, false⟩ := by
  refine ⟨(migration_behavior (fun _ => false) emptySchema).1, ?_, ?_⟩
  · exact (migration_behavior (fun _ => false) emptySchema).2.1 rfl
  · exact (migration_behavior (fun _ => false) emptySchema).2.2 (fun k => rfl)

/-- Claim C7: a broadcast serializes the event once and appends exactly that
one message to the inbox of every connection in the open state, while a
connection not in the open state is skipped untouched (it receives
nothing); no connection is dropped or added by the broadcast. -/
theorem broadcast_delivers_once (data : JValue) (clients : List WSClient) :
    (broadcast data clients).length = clients.length ∧
    ∀ pr ∈ clients.zip (broadcast data clients),
      (pr.1.readyState = ReadyState.OPEN →
        pr.2.received = pr.1.received ++ [stringify data]) ∧
      (¬ pr.1.readyState = ReadyState.OPEN → pr.2 = pr.1) := by
  constructor
  · simp [broadcast]
  · induction clients with
    | nil =>
      intro pr hpr
      simp at hpr
    | cons c rest ih =>
      intro pr hpr
      simp only [broadcast, List.map_cons, List.zip_cons_cons, List.mem_cons] at hpr
      rcases hpr with hpr | hpr
      · subst hpr
        by_cases hc : c.readyState = ReadyState.OPEN
        · simp [hc]
        · simp [hc]
      · exact ih pr hpr

/-- A sample broadcast event. -/
def sampleEvent : JValue :=
  .obj [("type", .str "point_delete"), ("payload", .obj [("id", .str "p1")])]

/-- A sample connection set: one open client, one closed client with an
older inbox. -/
def sampleClients : List WSClient := [⟨.OPEN, []⟩, ⟨.CLOSED, ["m0"]⟩]

/-- Witness for C7: broadcasting the sample event to the sample connection
set delivers exactly one copy of the serialized message to the open client
and leaves the closed client untouched. -/
theorem broadcast_delivers_once_witness :
    (broadcast sampleEvent sampleClients).length = sampleClients.length ∧
    ((⟨.OPEN, [stringify sampleEvent]⟩ : WSClient).received
      = (⟨.OPEN, []⟩ : WSClient).received ++ [stringify sampleEvent]) ∧
    ((⟨.CLOSED, ["m0"]⟩ : WSClient), (⟨.CLOSED, ["m0"]⟩ : WSClient)).2
      = (⟨.CLOSED, ["m0"]⟩ : WSClient) := by
  refine ⟨(broadcast_delivers_once sampleEvent sampleClients).1, ?_, ?_⟩
  · exact ((broadcast_delivers_once sampleEvent sampleClients).2
      ((⟨.OPEN, []⟩ : WSClient), (⟨.OPEN, [stringify sampleEvent]⟩ : WSClient))
      (by simp [sampleClients, broadcast, sampleEvent])).1 rfl
  · exact ((broadcast_delivers_once sampleEvent sampleClients).2
      ((⟨.CLOSED, ["m0"]⟩ : WSClient), (⟨.CLOSED, ["m0"]⟩ : WSClient))
      (by simp [sampleClients, broadcast, sampleEvent])).2 (by simp)

theorem projIds_settingsHandler (body : List (String × JValue)) (db : DB) :
    projIds (settingsHandler body db).1 = projIds db := by
  unfold settingsHandler
  by_cases hc : truthyO (lookupKey "point_schema" body) = false ∧
      truthyO (lookupKey "plan_corners" body) = false
  · simp [hc]
  · simp only [if_neg hc]
    simp only [projIds, List.map_map]
    congr 1
    funext r
    by_cases h : r.id = "default" <;> simp [Function.comp, h]

theorem ensureDefaultProject_present (db : DB)
    (h : db.project.any (fun r => r.id = "default") = true) :
    ensureDefaultProject db = db := by
  unfold ensureDefaultProject
  rw [if_pos h]

theorem ensureDefaultProject_absent (db : DB)
    (h : db.project.any (fun r => r.id = "default") = false) :
    ensureDefaultProject db = { db with project := db.project ++
      [({ id := "default", plan_data_url := none, plan_width := none, plan_height := none,
          point_schema := none, plan_corners := none } : ProjectRow)] } := by
  unfold ensureDefaultProject
  rw [if_neg (by simp [h])]

theorem projIds_postPointHandler (props : List (String × JValue)) (geom : JValue) (db : DB) :
    projIds (postPointHandler props geom db).1 = projIds db := by
  unfold postPointHandler
  cases paramToText (lookupKey "id" props) with
  | none => rfl
  | some fid =>
    by_cases h1 : db.points.any (fun p => p.id = fid) = true
    · simp [h1, projIds]
    · by_cases h2 : db.project.any (fun r => r.id = "default") = true
      · simp [h1, h2, projIds]
      · simp [h1, h2, projIds]

/-- Claim C8: initialization inserts the default project row only when it
is absent, so a database whose project table is empty ends up with exactly
the `default` row, a repeated initialization changes nothing, and every
write operation — plan replace, settings update, point upsert, point
delete, import — preserves the project table's row ids, so the singleton is
never deleted. (The snapshot fetch constructs its response without
returning a modified database at all.) -/
theorem default_project_singleton :
    (∀ db : DB, "default" ∈ projIds (ensureDefaultProject db)) ∧
    (∀ db : DB, projIds db = [] → projIds (ensureDefaultProject db) = ["default"]) ∧
    (∀ db : DB, ensureDefaultProject (ensureDefaultProject db) = ensureDefaultProject db) ∧
    (∀ (fail : Nat → Bool) (b : PlanBody) (db : DB),
      projIds (replacePlanHandler fail b db).1 = projIds db) ∧
    (∀ (body : List (String × JValue)) (db : DB),
      projIds (settingsHandler body db).1 = projIds db) ∧
    (∀ (props : List (String × JValue)) (geom : JValue) (db : DB),
      projIds (postPointHandler props geom db).1 = projIds db) ∧
    (∀ (i : String) (db : DB), projIds (deletePointHandler i db).1 = projIds db) ∧
    (∀ (fail : Nat → Bool) (b : ImportBody) (db : DB),
      projIds (importHandler fail b db).1 = projIds db) := by
  refine ⟨?_, ?_, ?_, ?_, projIds_settingsHandler, projIds_postPointHandler, ?_, ?_⟩
  · intro db
    by_cases h : db.project.any (fun r => r.id = "default") = true
    · rw [ensureDefaultProject_present db h]
      rcases List.any_eq_true.mp h with ⟨r, hr, hid⟩
      exact List.mem_map.mpr ⟨r, hr, by simpa using hid⟩
    · rw [ensureDefaultProject_absent db (by simpa using h)]
      simp [projIds]
  · intro db hempty
    have hnil : db.project = [] := by
      simpa [projIds] using hempty
    rw [ensureDefaultProject_absent db (by simp [hnil])]
    simp [projIds, hnil]
  · intro db
    by_cases h : db.project.any (fun r => r.id = "default") = true
    · rw [ensureDefaultProject_present db h, ensureDefaultProject_present db h]
    · rw [ensureDefaultProject_absent db (by simpa using h)]
      exact ensureDefaultProject_present _ (by simp)
  · intro fail b db
    rw [replacePlan_cases]
    by_cases hc : fail 0 = true ∨ fail 1 = true
    · rw [if_pos hc]
    · rw [if_neg hc]
      show projIds (deleteDefaultPoints (updatePlanStmt b db)) = projIds db
      rw [projIds_deleteDefaultPoints, projIds_updatePlanStmt]
  · intro i db
    rfl
  · intro fail b db
    rcases importHandler_cases fail b db with ⟨db', hrun, heq⟩ | ⟨_, heq⟩
    · rw [heq]
      exact runStmtsFrom_preserves fail (fun d => projIds d = projIds db) (importStmts b)
        (fun s hs d d' hd hP => by
          show projIds d' = projIds db
          rw [← (projIds_importStmts b s hs d d' hd)]
          exact hP) 0 db db' hrun rfl
    · rw [heq]

/-- Witness for C8: initializing an empty database yields exactly the
default row, and a plan replacement on the sample database keeps it. -/
theorem default_project_singleton_witness :
    projIds (ensureDefaultProject ⟨[], []⟩) = ["default"] ∧
    projIds (replacePlanHandler (fun _ => false) samplePlanBody sampleDB).1 = projIds sampleDB := by
  exact ⟨default_project_singleton.2.1 ⟨[], []⟩ rfl,
    default_project_singleton.2.2.2.1 (fun _ => false) samplePlanBody sampleDB⟩

theorem zip_map_pairs {α β : Type} (f : α → β) (l : List α) :
    ∀ pr ∈ l.zip (l.map f), pr.2 = f pr.1 := by
  induction l with
  | nil =>
    intro pr hpr
    simp at hpr
  | cons a t ih =>
    intro pr hpr
    simp only [List.map_cons, List.zip_cons_cons, List.mem_cons] at hpr
    rcases hpr with h | h
    · subst h
      rfl
    · exact ih pr h

/-- Counterexample to claim C9 as stated: fetching the snapshot of a
database without the default project row yields no project value at all
(`rows[0]` is `undefined`, dropped from the JSON response), not a
default-shaped empty project. -/
theorem getProject_missing_row_counterexample :
    (getProjectHandler ⟨[], []⟩).project = none := rfl

/-- Claim C9 (amended): the snapshot returns the default project row when
it exists, joined with all points of the default project rendered as a
feature collection (geometry copied, `id` rebuilt from the primary key into
the properties, all other properties preserved); when the row is somehow
absent the returned project value is absent (`undefined`), not a
default-shaped empty project. -/
theorem getProject_snapshot (db : DB) :
    ((db.project.any (fun r => r.id = "default") = false) →
      (getProjectHandler db).project = none) ∧
    (∀ r, db.project = [r] → r.id = "default" → (getProjectHandler db).project = some r) ∧
    ((getProjectHandler db).features.length =
      (db.points.filter (fun p => p.project_id = some "default")).length) ∧
    (∀ pr ∈ (db.points.filter (fun p => p.project_id = some "default")).zip
        (getProjectHandler db).features,
      pr.2.geometry = pr.1.geometry ∧
      lookupKey "id" pr.2.properties = some (.str pr.1.id) ∧
      (∀ k, ¬ k = "id" → lookupKey k pr.2.properties = lookupKey k pr.1.properties)) := by
  refine ⟨?_, ?_, ?_, ?_⟩
  · intro h
    simp only [getProjectHandler]
    rw [List.find?_eq_none]
    intro r hr
    rw [List.any_eq_false] at h
    simpa using h r hr
  · intro r hr hid
    simp [getProjectHandler, hr, hid]
  · simp [getProjectHandler]
  · intro pr hpr
    have hpr2 := zip_map_pairs
      (fun p => (⟨setKey "id" (.str p.id) p.properties, p.geometry⟩ : Feature))
      (db.points.filter (fun p => p.project_id = some "default")) pr hpr
    rw [hpr2]
    refine ⟨rfl, lookupKey_setKey_self "id" (.str pr.1.id) pr.1.properties, ?_⟩
    intro k hk
    exact lookupKey_setKey_ne k "id" (.str pr.1.id) pr.1.properties hk

/-- Witness for the amended C9: the sample database's snapshot carries its
project row, and a database without the default row yields an absent
project value. -/
theorem getProject_snapshot_witness :
    (getProjectHandler sampleDB).project = some sampleRow ∧
    (getProjectHandler ⟨[], [samplePoint]⟩).project = none := by
  exact ⟨(getProject_snapshot sampleDB).2.1 sampleRow rfl rfl,
    (getProject_snapshot ⟨[], [samplePoint]⟩).1 rfl⟩
